import Mathlib

/-!
Verification of the tundra-connect API client wrappers.

This development shallowly embeds the response-handling, error-mapping and
request-building logic of the repository's API clients (Surepass, OpenExchange,
Aptos) and proves properties of the embedded code.

Conventions of the embedding:
* JavaScript runtime values reachable from the claims (parsed JSON bodies,
  metadata records) are modelled by the inductive type JSVal, which includes
  a distinguished undefined value because the clients distinguish absent
  fields from null ones.
* Exceptions are modelled with Except: a thrown value is either one of the
  client's own domain errors or a raw JavaScript error (TypeError and plain
  Error values), mirroring what can actually be thrown at runtime.
* The Guardian schema-validation engine and the BaseError class come from
  external packages and are not part of this repository's sources; they are
  modelled from the specification (see the doc comments marked
  "Modelled from the spec"). The schema declarations themselves
  (Response.ts, NameMatch.ts, Error.ts, Common.ts, LatestRates.ts) are in the
  sources and are translated field by field.
-/

namespace TundraConnect

/-- JavaScript runtime values as seen by the clients: parsed JSON plus the
distinguished undefined value (absent object fields read as undefined). -/
inductive JSVal where
  | undefined
  | null
  | bool (b : Bool)
  | num (q : Rat)
  | str (s : String)
  | arr (elems : List JSVal)
  | obj (fields : List (String × JSVal))
deriving Repr

/-- Raw (non-domain) JavaScript errors that the embedded code can throw. -/
inductive JsError where
  | typeError (message : String)
  | genericError (message : String)
deriving Repr, DecidableEq

/-- JS property read on a value that is known not to be null or undefined:
object fields are looked up (first binding wins, absent reads as undefined);
property reads on primitives yield undefined. -/
def JSVal.get (v : JSVal) (key : String) : JSVal :=
  match v with
  | .obj fields =>
    match fields.lookup key with
    | some x => x
    | none => .undefined
  | _ => .undefined

/-- JS property read with the full runtime behaviour: reading a property of
null or undefined throws a TypeError. -/
def JSVal.getProp (v : JSVal) (key : String) : Except JsError JSVal :=
  match v with
  | .null => .error (.typeError "Cannot read properties of null")
  | .undefined => .error (.typeError "Cannot read properties of undefined")
  | _ => .ok (v.get key)

/-- JS property write obj.key = v: overwrites the binding when the key is
present, appends it otherwise. -/
def setKey (fields : List (String × JSVal)) (key : String) (v : JSVal) :
    List (String × JSVal) :=
  if fields.any (fun p => p.1 == key) then
    fields.map (fun p => if p.1 == key then (key, v) else p)
  else
    fields ++ [(key, v)]

/-- The response envelope handed to the clients by the RESTler transport:
a numeric status code and the parsed body. -/
structure RESTlerResponse where
  status : Int
  body : JSVal

/-! ## Guardian validation model

Modelled from the spec: the Guardian schema-validation engine is an external
dependency (spec section 1 lists it among the opaque dependencies). Per spec
section 4.2 validation is structural and exhaustive: every declared field is
checked, unknown extra fields are ignored (open schema), and missing required
fields or type mismatches fail the whole validation atomically. A schema is
therefore modelled as a Boolean structural check over JSVal, and
guardValidate mirrors the call sites, which destructure
guard.validate(x) into an error component and a value component — exactly one
of the two is present. On success the validated value is the input value
(coercions and case transformations of the engine are not modelled; no claim
depends on them). -/
def guardValidate (check : JSVal → Bool) (v : JSVal) : Option JSVal :=
  if check v then some v else none

/-- Check for a field produced by Guardian's optional combinator: the field
may be absent (read as undefined), null, or must satisfy the inner check. -/
def optionalField (check : JSVal → Bool) (v : JSVal) : Bool :=
  match v with
  | .undefined => true
  | .null => true
  | _ => check v

/-- Guardian.string() -/
def isStr : JSVal → Bool
  | .str _ => true
  | _ => false

/-- Guardian.number() -/
def isNum : JSVal → Bool
  | .num _ => true
  | _ => false

/-- Guardian.number().integer() -/
def isIntNum : JSVal → Bool
  | .num q => q.den == 1
  | _ => false

/-- Guardian.number().min(0) -/
def isNonNegNum : JSVal → Bool
  | .num q => 0 ≤ q
  | _ => false

/-- Guardian.number().positive() -/
def isPosNum : JSVal → Bool
  | .num q => 0 < q
  | _ => false

/-- Guardian.boolean() -/
def isBool : JSVal → Bool
  | .bool _ => true
  | _ => false

/-- Guardian.object() with no field schema. -/
def isObjVal : JSVal → Bool
  | .obj _ => true
  | _ => false

/-- Guardian.string().minLength(n) -/
def strMinLen (n : Nat) : JSVal → Bool
  | .str s => n ≤ s.length
  | _ => false

/-- Guardian.string().minLength(3).maxLength(3), the baseGuard of
src/openexchange/schema/Common.ts. -/
def strLen3 : JSVal → Bool
  | .str s => s.length == 3
  | _ => false

/-- Guardian.boolean().equals(true) -/
def isBoolTrue : JSVal → Bool
  | .bool b => b
  | _ => false

/-- Guardian.number().in(xs): a number drawn from a fixed integer set. -/
def isNumIn (xs : List Int) : JSVal → Bool
  | .num q => xs.any (fun n => q == (n : Rat))
  | _ => false

/-- Guardian.string().in(xs) -/
def isStrIn (xs : List String) : JSVal → Bool
  | .str s => xs.contains s
  | _ => false

/-- JavaScript strict equality of a value with a string literal, used for
the switch dispatch on the vendor message field. -/
def isStrVal (v : JSVal) (s : String) : Bool :=
  match v with
  | .str t => t == s
  | _ => false

/-! ## Schema declarations translated from the sources -/

/-- src/surepass/schemas/Response.ts SurepassResponseSchema: an object whose
optional fields are status_code (integer), success (boolean), message
(string), message_code (uppercased string) and data (object). -/
def SurepassResponseSchema (v : JSVal) : Bool :=
  isObjVal v
  && optionalField isIntNum (v.get "status_code")
  && optionalField isBool (v.get "success")
  && optionalField isStr (v.get "message")
  && optionalField isStr (v.get "message_code")
  && optionalField isObjVal (v.get "data")

/-- src/surepass/schemas/NameMatch.ts SurepassNameMatchSchema: required
client_id, name_1, name_2 (strings), match_score (number), match_status
(boolean). -/
def SurepassNameMatchSchema (v : JSVal) : Bool :=
  isObjVal v
  && isStr (v.get "client_id")
  && isStr (v.get "name_1")
  && isStr (v.get "name_2")
  && isNum (v.get "match_score")
  && isBool (v.get "match_status")

/-- src/openexchange/schema/Error.ts ErrorSchemaObject: error must equal
true, status must be one of 400, 401, 403, 404, 429, message must be one of
the six vendor error identifiers, description must be a string. -/
def ErrorSchemaObject (v : JSVal) : Bool :=
  isObjVal v
  && isBoolTrue (v.get "error")
  && isNumIn [400, 401, 403, 404, 429] (v.get "status")
  && isStrIn ["not_found", "missing_app_id", "invalid_app_id", "not_allowed",
      "access_restricted", "invalid_base"] (v.get "message")
  && isStr (v.get "description")

/-- src/openexchange/schema/Common.ts RateSchemaObject: a key-value object
mapping 3-character currency codes to positive numbers. -/
def RateSchemaObject : JSVal → Bool
  | .obj fields => fields.all (fun p => p.1.length == 3 && isPosNum p.2)
  | _ => false

/-- src/openexchange/schema/LatestRates.ts LatestRatesSchemaObject: optional
disclaimer and license (strings of length at least 5), optional timestamp
(number at least 0), optional base (3-character string), required rates
(RateSchemaObject). -/
def LatestRatesSchemaObject (v : JSVal) : Bool :=
  isObjVal v
  && optionalField (strMinLen 5) (v.get "disclaimer")
  && optionalField (strMinLen 5) (v.get "license")
  && optionalField isNonNegNum (v.get "timestamp")
  && optionalField strLen3 (v.get "base")
  && RateSchemaObject (v.get "rates")

/-! ## Error code tables and domain error wrappers -/

/-- src/surepass/SurepassError.ts SurepassErrorCodes: the vendor code table,
mapping each Surepass error code to its message template. -/
def SurepassErrorCodes : List (String × String) :=
  [("UNHANDLED_ERROR", "An unhandled error occurred."),
   ("UNKNOWN_ERROR", "An unknown error occurred in Surepass."),
   ("RESPONSE_ERROR",
     "Got an invalid response/response status: ${status}. Check details."),
   ("INVALID_TOKEN",
     "The bearer token has either expired or is invalid or does not have access to this scope."),
   ("RATE_LIMIT_EXCEEDED",
     "You have exceeded the rate limit for this API. Please try again later."),
   ("SERVICE_UNAVAILABLE",
     "Surepass API\x27s are down or facing issues. Please try again later."),
   ("VERIFICATION_FAILED",
     "There is an issue with the data provided. Please re-check"),
   ("PARSE_ERROR",
     "The response from API did not match the expected format. See details for more information."),
   ("UNKNOWN_RESPONSE_ERROR",
     "Received an unknown response status code from Surepass API.")]

/-- src/openexchange/OpenExchangeError.ts OpenExchangeErrorCodes: the vendor
code table for the OpenExchange client. -/
def OpenExchangeErrorCodes : List (String × String) :=
  [("UNKNOWN_ERROR", "An unknown error occurred in Open Exchange."),
   ("MISSING_APP_ID", "Application ID is required for the API request."),
   ("CONFIG_INVALID_APP_ID", "Application ID must be a non-empty string."),
   ("CONFIG_INVALID_BASE_CURRENCY",
     "Base currency must be a 3-character string, got ${baseCurrency}."),
   ("INVALID_APP_ID",
     "Invalid application ID provided (expired or de-activated application id)."),
   ("NOT_FOUND", "The requested resource was not found."),
   ("NOT_ALLOWED",
     "This operation is not allowed with the current application ID."),
   ("RESPONSE_ERROR",
     "Got an invalid response/response status: ${status} from Open Exchange API."),
   ("SERVICE_UNAVAILABLE", "Open Exchange service is currently unavailable.")]

/-- A constructed SurepassError. The code, context (the metadata object,
called context by BaseError) and cause fields are those the constructor in
src/surepass/SurepassError.ts produces; message is the per-code message text
the constructor passes to super. -/
structure SurepassError where
  code : String
  message : String
  context : List (String × JSVal)
  cause : Option JsError

/-- A constructed OpenExchangeError, analogous to SurepassError. -/
structure OpenExchangeError where
  code : String
  message : String
  context : List (String × JSVal)
  cause : Option JsError

/-- The property names every plain JavaScript object literal inherits from
Object.prototype. A property read of one of these names on the code tables
(which are object literals) returns the inherited built-in — a function, or
the prototype object itself for the proto accessor — and every such value is
truthy. -/
def objectPrototypeMembers : List String :=
  ["constructor", "hasOwnProperty", "isPrototypeOf", "propertyIsEnumerable",
   "toLocaleString", "toString", "valueOf", "__proto__",
   "__defineGetter__", "__defineSetter__", "__lookupGetter__",
   "__lookupSetter__"]

/-- The SurepassError constructor from src/surepass/SurepassError.ts: it
tests !SurepassErrorCodes[code] — JavaScript truthiness of a property read on
an object literal, which consults the prototype chain. A key of the table
reads as its (non-empty, hence truthy) message string; a name inherited from
Object.prototype reads as the inherited built-in, which is also truthy, so
the fallback is skipped just as for a table key and super receives the
built-in value (rendered here as a fixed placeholder string; no property
proved below depends on its text). Only for a code that is neither does the
read yield undefined, and then the original code is stored in the metadata
under originalCode, the code falls back to UNKNOWN_ERROR, and super receives
that code's message text, the metadata and the cause. -/
def SurepassError.make (code : String) (meta : List (String × JSVal))
    (cause : Option JsError) : SurepassError :=
  match SurepassErrorCodes.lookup code with
  | some msg => SurepassError.mk code msg meta cause
  | none =>
    if objectPrototypeMembers.contains code then
      SurepassError.mk code "[inherited Object.prototype member]" meta cause
    else
      SurepassError.mk "UNKNOWN_ERROR"
        ((SurepassErrorCodes.lookup "UNKNOWN_ERROR").getD "")
        (setKey meta "originalCode" (.str code)) cause

/-- The OpenExchangeError constructor from
src/openexchange/OpenExchangeError.ts, identical in structure to
SurepassError.make (including the prototype-chain behaviour of the
truthiness test) but over the OpenExchange code table. -/
def OpenExchangeError.make (code : String) (meta : List (String × JSVal))
    (cause : Option JsError) : OpenExchangeError :=
  match OpenExchangeErrorCodes.lookup code with
  | some msg => OpenExchangeError.mk code msg meta cause
  | none =>
    if objectPrototypeMembers.contains code then
      OpenExchangeError.mk code "[inherited Object.prototype member]" meta
        cause
    else
      OpenExchangeError.mk "UNKNOWN_ERROR"
        ((OpenExchangeErrorCodes.lookup "UNKNOWN_ERROR").getD "")
        (setKey meta "originalCode" (.str code)) cause

/-- Replacement of every occurrence of a pattern in a character list,
scanning left to right; the fuel argument (instantiated with the list length)
makes the recursion structural so that the function evaluates inside the
kernel. -/
def replaceAllFuel (pat rep : List Char) : Nat → List Char → List Char
  | 0, l => l
  | _ + 1, [] => []
  | fuel + 1, c :: rest =>
    if pat ≠ [] ∧ (c :: rest).take pat.length = pat then
      rep ++ replaceAllFuel pat rep fuel ((c :: rest).drop pat.length)
    else
      c :: replaceAllFuel pat rep fuel rest

/-- Replace every occurrence of a pattern in a string. -/
def replaceAll (s pat rep : String) : String :=
  String.mk (replaceAllFuel pat.data rep.data s.data.length s.data)

/-- Replace every occurrence of the placeholder for the given key in a
message template with the given text. -/
def substPlaceholder (s : String) (key : String) (val : String) : String :=
  replaceAll s ("$" ++ "\x7b" ++ key ++ "\x7d") val

/-- Rendering of a metadata value into message text (string conversion of
JavaScript values; the exact number formatting is not relied on by any
property proved here). -/
def jsValToString : JSVal → String
  | .undefined => "undefined"
  | .null => "null"
  | .bool true => "true"
  | .bool false => "false"
  | .num q => toString q
  | .str s => s
  | .arr _ => "[array]"
  | .obj _ => "[object Object]"

/-- Substitute every metadata entry into the remaining placeholders of a
message. -/
def substMeta (s : String) (meta : List (String × JSVal)) : String :=
  meta.foldl (fun acc p => substPlaceholder acc p.1 (jsValToString p.2)) s

/-- Modelled from the spec: BaseError (imported from the external utils
package, absent from this repository's sources) renders the final message at
construction time by substituting the construction timestamp and the per-code
message into the vendor message template — for Surepass the template is
the string given by SurepassError messageTemplate,
namely [Surepass] followed by the timeStamp and message placeholders — and
then substituting metadata values into any remaining placeholders (spec
section 4.4; the OpenExchange error documentation states the timestamp is
the moment the error occurred). The timestamp is made an explicit argument
so that its influence on the message text can be stated. -/
def SurepassError.renderedMessage (e : SurepassError) (timeStamp : String) :
    String :=
  substMeta
    (substPlaceholder
      (substPlaceholder "[Surepass] ${timeStamp}: ${message}"
        "timeStamp" timeStamp)
      "message" e.message)
    e.context

/-- Modelled from the spec: message rendering for OpenExchangeError, with the
template of OpenExchangeError messageTemplate. See
SurepassError.renderedMessage. -/
def OpenExchangeError.renderedMessage (e : OpenExchangeError)
    (timeStamp : String) : String :=
  substMeta
    (substPlaceholder
      (substPlaceholder "[OpenExchange] ${timeStamp}: ${message}"
        "timeStamp" timeStamp)
      "message" e.message)
    e.context

/-! ## Response handlers -/

/-- A value thrown during a Surepass operation: either the client's own
domain error or a raw JavaScript error. -/
inductive SPThrow where
  | domain (e : SurepassError)
  | js (e : JsError)

/-- A value thrown during an OpenExchange operation. -/
inductive OXThrow where
  | domain (e : OpenExchangeError)
  | js (e : JsError)

/-- Surepass __checkAPIResponse (src/surepass/Surepass.ts): first validates
the body against SurepassResponseSchema; on failure it throws RESPONSE_ERROR
whose metadata reads status_code off resp.body with a non-null assertion —
that property read itself throws a raw TypeError when the body is null or
undefined. On a validated body with success strictly equal to false, the
status_code switch maps 500, 422, 401, 429 to their vendor codes and
everything else to UNKNOWN_RESPONSE_ERROR. Otherwise the optional data
validator runs: its failure throws PARSE_ERROR, its success returns the
validated data (without a validator the raw data field is returned). The
details metadata (listCauses output of the external Guardian error) is
abbreviated to a fixed string; no property here depends on it. -/
def Surepass.checkAPIResponse (resp : RESTlerResponse)
    (validator : Option (JSVal → Bool)) : Except SPThrow JSVal :=
  match guardValidate SurepassResponseSchema resp.body with
  | none =>
    match resp.body.getProp "status_code" with
    | .error je => .error (.js je)
    | .ok statusCode =>
        .error (.domain (SurepassError.make "RESPONSE_ERROR"
          [("status", statusCode), ("details", .str "validation causes")] none))
  | some respObj =>
    match respObj.get "success" with
    | .bool false =>
      let code : String :=
        match respObj.get "status_code" with
        | .num q =>
          if q = 500 then "SERVICE_UNAVAILABLE"
          else if q = 422 then "VERIFICATION_FAILED"
          else if q = 401 then "INVALID_TOKEN"
          else if q = 429 then "RATE_LIMIT_EXCEEDED"
          else "UNKNOWN_RESPONSE_ERROR"
        | _ => "UNKNOWN_RESPONSE_ERROR"
      .error (.domain (SurepassError.make code
        [("statusCode", respObj.get "status_code"),
         ("message", respObj.get "message"),
         ("details", respObj.get "data")] none))
    | _ =>
      match validator with
      | some guard =>
        match guardValidate guard (respObj.get "data") with
        | none =>
            .error (.domain (SurepassError.make "PARSE_ERROR"
              [("details", .str "validation causes")] none))
        | some validatedData => .ok validatedData
      | none => .ok (respObj.get "data")

/-- The public-operation boundary shared verbatim by all seven Surepass
operations (compareNames, verifyBankAccount, verifyPAN, initiateAadhaar,
fetchAadhaar, verifyCIN, verifyGSTIN in src/surepass/Surepass.ts): the
transport call followed by __checkAPIResponse runs inside try/catch; a caught
SurepassError gets the endpoint written into its context and is re-thrown,
any other caught value is wrapped in an UNHANDLED_ERROR SurepassError whose
metadata names the endpoint and whose cause is the caught value. The
transport argument is the outcome of the injected _makeRequest call. -/
def Surepass.attemptOperation (transport : Except SPThrow RESTlerResponse)
    (validator : Option (JSVal → Bool)) : Except SPThrow JSVal :=
  match transport with
  | .error e => .error e
  | .ok resp => Surepass.checkAPIResponse resp validator

/-- The catch clause wrapped around Surepass.attemptOperation; see the
comment on that definition. -/
def Surepass.operation (endpoint : String)
    (transport : Except SPThrow RESTlerResponse)
    (validator : Option (JSVal → Bool)) : Except SPThrow JSVal :=
  match Surepass.attemptOperation transport validator with
  | .ok v => .ok v
  | .error (.domain cause) =>
      .error (.domain
        { cause with context := setKey cause.context "endpoint" (.str endpoint) })
  | .error (.js cause) =>
      .error (.domain (SurepassError.make "UNHANDLED_ERROR"
        [("endpoint", .str endpoint)] (some cause)))

/-- OpenExchange __handle (src/openexchange/OpenExchange.ts): status 200
validates against the success schema, throwing RESPONSE_ERROR on failure and
returning the body otherwise; statuses 401, 400, 403, 404, 429 validate the
body against ErrorSchemaObject and dispatch on the vendor message field
(not_found, missing_app_id, invalid_app_id, not_allowed / access_restricted,
otherwise RESPONSE_ERROR), throwing RESPONSE_ERROR when the error schema
itself does not match; every other status tries the success schema and
throws SERVICE_UNAVAILABLE exactly when it fails, returning the validated
body otherwise. -/
def OpenExchange.handle (resp : RESTlerResponse) (guard : JSVal → Bool) :
    Except OXThrow JSVal :=
  if resp.status = 200 then
    match guardValidate guard resp.body with
    | none =>
        .error (.domain (OpenExchangeError.make "RESPONSE_ERROR"
          [("status", .num 200), ("body", resp.body)] none))
    | some body => .ok body
  else if [401, 400, 403, 404, 429].contains resp.status then
    match guardValidate ErrorSchemaObject resp.body with
    | some body =>
      if isStrVal (body.get "message") "not_found" then
        .error (.domain (OpenExchangeError.make "NOT_FOUND"
          [("status", .num resp.status), ("body", resp.body)] none))
      else if isStrVal (body.get "message") "missing_app_id" then
        .error (.domain (OpenExchangeError.make "MISSING_APP_ID"
          [("status", .num resp.status), ("body", resp.body)] none))
      else if isStrVal (body.get "message") "invalid_app_id" then
        .error (.domain (OpenExchangeError.make "INVALID_APP_ID"
          [("status", .num resp.status), ("body", resp.body)] none))
      else if isStrVal (body.get "message") "not_allowed"
          || isStrVal (body.get "message") "access_restricted" then
        .error (.domain (OpenExchangeError.make "NOT_ALLOWED"
          [("status", .num resp.status), ("body", resp.body)] none))
      else
        .error (.domain (OpenExchangeError.make "RESPONSE_ERROR"
          [("status", .num resp.status), ("body", resp.body)] none))
    | none =>
        .error (.domain (OpenExchangeError.make "RESPONSE_ERROR"
          [("status", .num resp.status), ("body", resp.body),
           ("responseError", .str "guardian error")] none))
  else
    match guardValidate guard resp.body with
    | none =>
        .error (.domain (OpenExchangeError.make "SERVICE_UNAVAILABLE"
          [("status", .num resp.status), ("body", resp.body),
           ("responseError", .str "guardian error")] none))
    | some body => .ok body

/-- OpenExchange getRates (src/openexchange/OpenExchange.ts): the transport
call followed by __handle with the latest-rates schema, then projection of
the rates field. There is no try/catch in any OpenExchange operation, so
whatever the transport or the handler throws propagates unchanged. -/
def OpenExchange.getRates (transport : Except OXThrow RESTlerResponse) :
    Except OXThrow JSVal :=
  match transport with
  | .error e => .error e
  | .ok resp =>
    match OpenExchange.handle resp LatestRatesSchemaObject with
    | .error e => .error e
    | .ok ratesData => .ok (ratesData.get "rates")

/-! ## Request building -/

/-- The query construction of OpenExchange getRates (and, with the same
lines, getHistoricalRates, getTimeSeries and getOHLC): the options default
merges the configured baseCurrency (or USD when that option is absent or
empty, the JavaScript or-default) under the caller's options; a truthy base
is uppercased into the query; a non-empty symbols array is uppercased
element-wise and joined with commas, and otherwise the symbols key is not
written at all. -/
def OpenExchange.buildRatesQuery (baseCurrencyOption : Option String)
    (base : Option String) (symbols : Option (List String)) :
    List (String × String) :=
  let defaultBase : String :=
    match baseCurrencyOption with
    | some bc => if bc ≠ "" then bc else "USD"
    | none => "USD"
  let mergedBase := base.getD defaultBase
  let query : List (String × String) :=
    if mergedBase ≠ "" then [("base", mergedBase.toUpper)] else []
  match symbols with
  | some syms =>
    if syms.length > 0 then
      query ++ [("symbols", String.intercalate "," (syms.map String.toUpper))]
    else query
  | none => query

/-- The query construction of OpenExchange convert: amount stringified, from
and to uppercased, and the date key written only when a truthy date option is
given. (The decimal formatting of the amount is Lean's rational formatting;
no property below depends on it.) -/
def OpenExchange.buildConvertQuery (amount : Rat) (fromCurrency : String)
    (toCurrency : String) (date : Option String) : List (String × String) :=
  let query : List (String × String) :=
    [("amount", toString amount),
     ("from", fromCurrency.toUpper),
     ("to", toCurrency.toUpper)]
  match date with
  | some d => if d ≠ "" then query ++ [("date", d)] else query
  | none => query

/-! ## The Surepass constructor -/

/-- The option record the Surepass constructor manipulates before handing it
to the RESTler base class; mode is kept as an arbitrary string so that values
outside the declared SANDBOX / PRODUCTION union can be examined. -/
structure SurepassOptions where
  mode : String
  baseURL : Option String
  version : Option String
  contentType : Option String
  timeout : Option Int
  headers : List (String × String)

/-- The Surepass constructor (src/surepass/Surepass.ts): the mode switch has
SANDBOX as its only distinguished case — the default label and the
PRODUCTION label share one branch — so every mode other than SANDBOX selects
the production base URL, and the constructor then unconditionally overwrites
version, contentType, timeout and headers before calling super. It contains
no throw. -/
def Surepass.constructorOptions (options : SurepassOptions) : SurepassOptions :=
  let options :=
    if options.mode = "SANDBOX" then
      { options with
          baseURL := some "https://sandbox.surepass.app/api/{version}" }
    else
      { options with
          baseURL := some "https://kyc-api.surepass.app/api/{version}" }
  { options with
      version := some "v1"
      contentType := some "JSON"
      timeout := some 10
      headers := [("Content-Type", "application/json"),
        ("Accept", "application/json")] }

/-! ## The Aptos address helpers

JavaScript string primitives are modelled on the underlying character list:
startsWith compares a prefix, slice(2) drops two characters, the regex test
of one-or-more hex digits anchored at both ends is the conjunction of
non-emptiness and an all-characters check, and padStart prepends fill
characters up to the target length (returning the string unchanged when it is
already long enough). -/

/-- JS String.prototype.startsWith. -/
def strStartsWith (s p : String) : Bool :=
  s.data.take p.data.length == p.data

/-- JS String.prototype.slice from a character index to the end. -/
def strDropChars (s : String) (n : Nat) : String :=
  String.mk (s.data.drop n)

/-- JS String.prototype.length (character count). -/
def strLen (s : String) : Nat :=
  s.data.length

/-- One character of the hex-digit class of the regex in Aptos.isValidAddress. -/
def isHexDigitChar (c : Char) : Bool :=
  (decide (Char.ofNat 48 ≤ c) && decide (c ≤ Char.ofNat 57))
  || (decide (Char.ofNat 97 ≤ c) && decide (c ≤ Char.ofNat 102))
  || (decide (Char.ofNat 65 ≤ c) && decide (c ≤ Char.ofNat 70))

/-- The test of the anchored regex of one or more hex digits used by
Aptos.isValidAddress. -/
def hexRegexTest (s : String) : Bool :=
  decide (0 < s.data.length) && s.data.all isHexDigitChar

/-- JS String.prototype.padStart with a single fill character. -/
def strPadStart (s : String) (n : Nat) (c : Char) : String :=
  if n ≤ s.data.length then s
  else String.mk (List.replicate (n - s.data.length) c ++ s.data)

/-- Aptos.isValidAddress (src/aptos/Aptos.ts): the address must start with
0x, the remainder must match the hex regex, and the remainder may be at most
64 characters long. -/
def Aptos.isValidAddress (address : String) : Bool :=
  if !(strStartsWith address "0x") then false
  else
    let addressWithoutPrefix := strDropChars address 2
    if !(hexRegexTest addressWithoutPrefix) then false
    else if strLen addressWithoutPrefix > 64 then false
    else true

/-- Aptos.normalizeAddress (src/aptos/Aptos.ts): null for invalid addresses,
otherwise 0x followed by the remainder left-padded with zeros to 64
characters. -/
def Aptos.normalizeAddress (address : String) : Option String :=
  if !(Aptos.isValidAddress address) then none
  else
    let addressWithoutPrefix := strDropChars address 2
    let normalizedAddressWithoutPrefix := strPadStart addressWithoutPrefix 64
      (Char.ofNat 48)
    some ("0x" ++ normalizedAddressWithoutPrefix)

/-! ## Helper lemmas -/

/-- Overwriting every binding of a present key makes the key read back as
the written value. -/
lemma lookup_map_setKey (k : String) (v : JSVal) (l : List (String × JSVal))
    (h : l.any (fun p => p.1 == k) = true) :
    (l.map (fun p => if p.1 == k then (k, v) else p)).lookup k = some v := by
  induction l with
  | nil => simp at h
  | cons p tl ih =>
    simp only [List.map_cons]
    by_cases hp : p.1 = k
    · rw [if_pos (by simp [hp])]
      simp [List.lookup]
    · rw [if_neg (by simp [hp])]
      have hp2 : (p.1 == k) = false := beq_eq_false_iff_ne.mpr hp
      have hk : (k == p.1) = false := beq_eq_false_iff_ne.mpr (Ne.symm hp)
      simp only [List.any_cons, hp2, Bool.false_or] at h
      simp only [List.lookup, hk]
      simpa using ih h

/-- Appending a binding for an absent key makes the key read back as the
written value. -/
lemma lookup_append_setKey (k : String) (v : JSVal) (l : List (String × JSVal))
    (h : l.any (fun p => p.1 == k) = false) :
    (l ++ [(k, v)]).lookup k = some v := by
  induction l with
  | nil => simp [List.lookup]
  | cons p tl ih =>
    simp only [List.any_cons, Bool.or_eq_false_iff] at h
    have hk : (k == p.1) = false :=
      beq_eq_false_iff_ne.mpr (Ne.symm (ne_of_beq_false h.1))
    simpa [List.lookup, hk] using ih h.2

/-- After a JS property write the written key reads back as the written
value. -/
lemma lookup_setKey (l : List (String × JSVal)) (k : String) (v : JSVal) :
    (setKey l k v).lookup k = some v := by
  unfold setKey
  split
  · next h => exact lookup_map_setKey k v l h
  · next h =>
    refine lookup_append_setKey k v l ?_
    cases hb : l.any (fun p => p.1 == k) with
    | true => exact absurd hb h
    | false => rfl

/-- Character-level description of JS padStart. -/
lemma strPadStart_data (s : String) (n : Nat) (c : Char) :
    (strPadStart s n c).data = List.replicate (n - s.data.length) c ++ s.data := by
  unfold strPadStart
  split
  · next h =>
    have h0 : n - s.data.length = 0 := Nat.sub_eq_zero_of_le h
    rw [h0, List.replicate_zero, List.nil_append]
  · rfl

/-- Unfolding of Aptos.isValidAddress into the character-list reading of the
claim: a valid address is 0x followed by one to sixty-four hex digits. -/
lemma isValidAddress_iff (address : String) :
    Aptos.isValidAddress address = true ↔
      ∃ t : List Char, address.data = '0' :: 'x' :: t
        ∧ 0 < t.length ∧ t.length ≤ 64 ∧ t.all isHexDigitChar = true := by
  have h0x : ("0x" : String).data = ['0', 'x'] := rfl
  constructor
  · intro h
    unfold Aptos.isValidAddress at h
    by_cases h1 : strStartsWith address "0x" = true
    case neg => rw [if_pos (by simp [h1])] at h; exact absurd h (by simp)
    rw [if_neg (by simp [h1])] at h
    unfold strStartsWith at h1
    rw [h0x] at h1
    simp only [List.length_cons, List.length_nil, beq_iff_eq] at h1
    obtain ⟨t, hd⟩ : ∃ t, address.data = '0' :: 'x' :: t := by
      cases hdata : address.data with
      | nil => rw [hdata] at h1; simp at h1
      | cons a l =>
        cases l with
        | nil => rw [hdata] at h1; simp [List.take] at h1
        | cons b t =>
          rw [hdata] at h1
          simp [List.take] at h1
          exact ⟨t, by rw [h1.1, h1.2]⟩
    by_cases h2 : hexRegexTest (strDropChars address 2) = true
    case neg => rw [if_pos (by simp [h2])] at h; exact absurd h (by simp)
    rw [if_neg (by simp [h2])] at h
    unfold hexRegexTest strDropChars at h2
    rw [hd] at h2
    simp only [List.drop_succ_cons, List.drop_zero] at h2
    simp only [Bool.and_eq_true, decide_eq_true_eq] at h2
    refine ⟨t, hd, h2.1, ?_, h2.2⟩
    by_cases h3 : strLen (strDropChars address 2) > 64
    · rw [if_pos h3] at h; exact absurd h (by simp)
    · unfold strLen strDropChars at h3
      rw [hd] at h3
      simp only [List.drop_succ_cons, List.drop_zero, not_lt] at h3
      exact h3
  · rintro ⟨t, hd, hpos, hle, hall⟩
    unfold Aptos.isValidAddress strStartsWith strDropChars strLen hexRegexTest
    rw [h0x, hd]
    simp [List.take, List.drop, hpos, hall, Nat.not_lt.mpr hle]

/-- C10: Aptos.normalizeAddress returns null exactly on the addresses
isValidAddress rejects; on a valid address it returns 0x followed by the
input hex digits left-padded with zeros to 64 characters, and applying
normalizeAddress to that output returns it unchanged (idempotence). -/
theorem aptos_normalizeAddress_spec (address : String) :
    (Aptos.normalizeAddress address = none ↔ Aptos.isValidAddress address = false)
    ∧ (Aptos.isValidAddress address = true →
        ∃ r : String, Aptos.normalizeAddress address = some r
          ∧ r = "0x" ++ strPadStart (strDropChars address 2) 64 (Char.ofNat 48)
          ∧ strStartsWith r "0x" = true
          ∧ strLen r = 66
          ∧ (strDropChars r 2).data.all isHexDigitChar = true
          ∧ Aptos.normalizeAddress r = some r) := by
  constructor
  · cases h : Aptos.isValidAddress address <;>
      simp [Aptos.normalizeAddress, h]
  · intro h
    obtain ⟨t, hd, hpos, hle, hall⟩ := (isValidAddress_iff address).1 h
    have hdrop : strDropChars address 2 = String.mk t := by
      unfold strDropChars; rw [hd]; rfl
    have hzero : isHexDigitChar (Char.ofNat 48) = true := by decide
    set pad := strPadStart (strDropChars address 2) 64 (Char.ofNat 48) with hpad
    have hpaddata : pad.data = List.replicate (64 - t.length) (Char.ofNat 48) ++ t := by
      rw [hpad, hdrop, strPadStart_data]
    have hpadlen : pad.data.length = 64 := by
      rw [hpaddata]; simp; omega
    have hpadall : pad.data.all isHexDigitChar = true := by
      rw [hpaddata]
      simp only [List.all_append, Bool.and_eq_true]
      exact ⟨by simp [List.all_eq_true, hzero], hall⟩
    refine ⟨"0x" ++ pad, ?_, rfl, ?_, ?_, ?_, ?_⟩
    · unfold Aptos.normalizeAddress
      rw [h]
      rfl
    · unfold strStartsWith
      rw [String.data_append]
      rfl
    · unfold strLen
      rw [String.data_append]
      simp [hpadlen]
    · unfold strDropChars
      rw [String.data_append]
      show (String.mk (List.drop 2 (('0' :: 'x' :: []) ++ pad.data))).data.all isHexDigitChar = true
      simpa using hpadall
    · have hvalid : Aptos.isValidAddress ("0x" ++ pad) = true := by
        rw [isValidAddress_iff]
        refine ⟨pad.data, ?_, by omega, by omega, hpadall⟩
        rw [String.data_append]
        rfl
      unfold Aptos.normalizeAddress
      rw [hvalid]
      simp only [Bool.not_true, Bool.false_eq_true, if_false]
      have hdrop2 : strDropChars ("0x" ++ pad) 2 = pad := by
        unfold strDropChars
        rw [String.data_append]
        show String.mk (List.drop 2 (('0' :: 'x' :: []) ++ pad.data)) = pad
        simp
      rw [hdrop2]
      have : strPadStart pad 64 (Char.ofNat 48) = pad := by
        unfold strPadStart
        rw [if_pos (by omega)]
      rw [this]

/-- C10 witness: the specification instantiated at the concrete address
0xAbC. -/
theorem aptos_normalizeAddress_spec_witness :
    ∃ r : String, Aptos.normalizeAddress "0xAbC" = some r
      ∧ r = "0x" ++ strPadStart (strDropChars "0xAbC" 2) 64 (Char.ofNat 48)
      ∧ strStartsWith r "0x" = true
      ∧ strLen r = 66
      ∧ (strDropChars r 2).data.all isHexDigitChar = true
      ∧ Aptos.normalizeAddress r = some r :=
  (aptos_normalizeAddress_spec "0xAbC").2 (by decide)

/-- C9: the Surepass constructor never raises a configuration error for an
unrecognized mode — it is a total function in which every mode other than
SANDBOX (including values outside the declared union) selects the production
base URL — and it always overwrites any caller-supplied baseURL, version,
contentType and timeout with its own values. -/
theorem surepass_constructor_spec (options : SurepassOptions) :
    ((Surepass.constructorOptions options).baseURL =
      if options.mode = "SANDBOX" then
        some "https://sandbox.surepass.app/api/{version}"
      else some "https://kyc-api.surepass.app/api/{version}")
    ∧ (options.mode ≠ "SANDBOX" →
        (Surepass.constructorOptions options).baseURL =
          some "https://kyc-api.surepass.app/api/{version}")
    ∧ (Surepass.constructorOptions options).version = some "v1"
    ∧ (Surepass.constructorOptions options).contentType = some "JSON"
    ∧ (Surepass.constructorOptions options).timeout = some 10 := by
  unfold Surepass.constructorOptions
  by_cases h : options.mode = "SANDBOX" <;> simp [h]

/-- C9 witness: an out-of-union mode with caller-supplied baseURL, version,
contentType and timeout still gets the production URL. -/
theorem surepass_constructor_spec_witness :
    (Surepass.constructorOptions
        (SurepassOptions.mk "INVALID_MODE" (some "https://example.com")
          (some "v9") (some "XML") (some 99) [])).baseURL
      = some "https://kyc-api.surepass.app/api/{version}" :=
  (surepass_constructor_spec _).2.1 (by decide)

/-- C8: OpenExchange request building normalizes query parameters — convert
always sends from and to uppercased; getRates serializes a non-empty symbols
list as one comma-joined string of uppercased codes and omits the symbols key
entirely when the list is absent or empty. -/
theorem openexchange_query_normalization :
    (∀ (amount : Rat) (fromCurrency toCurrency : String) (date : Option String),
        (OpenExchange.buildConvertQuery amount fromCurrency toCurrency
            date).lookup "from" = some fromCurrency.toUpper
        ∧ (OpenExchange.buildConvertQuery amount fromCurrency toCurrency
            date).lookup "to" = some toCurrency.toUpper)
    ∧ (∀ (baseCurrencyOption base : Option String) (s : String)
          (ss : List String),
        (OpenExchange.buildRatesQuery baseCurrencyOption base
            (some (s :: ss))).lookup "symbols"
          = some (String.intercalate "," ((s :: ss).map String.toUpper)))
    ∧ (∀ (baseCurrencyOption base : Option String),
        (OpenExchange.buildRatesQuery baseCurrencyOption base none).lookup
            "symbols" = none
        ∧ (OpenExchange.buildRatesQuery baseCurrencyOption base
            (some [])).lookup "symbols" = none) := by
  refine ⟨?_, ?_, ?_⟩
  · intro amount fromCurrency toCurrency date
    rcases date with _ | d <;>
      simp only [OpenExchange.buildConvertQuery] <;>
      first
      | exact ⟨rfl, rfl⟩
      | (split_ifs <;> exact ⟨rfl, rfl⟩)
  · intro baseCurrencyOption base s ss
    rcases baseCurrencyOption with _ | bc <;> rcases base with _ | b <;>
      simp only [OpenExchange.buildRatesQuery, Option.getD] <;>
      split_ifs <;>
      first
      | rfl
      | (exfalso; simp_all)
  · intro baseCurrencyOption base
    constructor <;>
    · rcases baseCurrencyOption with _ | bc <;> rcases base with _ | b <;>
        simp only [OpenExchange.buildRatesQuery, Option.getD] <;>
        split_ifs <;>
        first
        | rfl
        | (exfalso; simp_all)

/-- C6 is refuted as stated: the requested code toString is not a key of
SurepassErrorCodes, yet the truthiness test !SurepassErrorCodes[code] is
satisfied by the toString function inherited from Object.prototype, so the
constructor performs no UNKNOWN_ERROR fallback and writes no originalCode. -/
theorem error_wrapper_unknown_code_counterexample :
    SurepassErrorCodes.lookup "toString" = none
    ∧ (SurepassError.make "toString" [] none).code = "toString"
    ∧ (SurepassError.make "toString" [] none).code ≠ "UNKNOWN_ERROR"
    ∧ (SurepassError.make "toString" [] none).context.lookup "originalCode"
        = none := by
  refine ⟨by decide, rfl, by decide, rfl⟩

/-- C6 amended: for every error code that is neither a key of the vendor's
known table nor a property name inherited from Object.prototype, both
constructors fall back to the generic UNKNOWN_ERROR code and preserve the
originally requested code in the metadata under originalCode; for an
inherited Object.prototype name the truthiness test is satisfied by the
inherited member, so the requested code is kept and the metadata is left
untouched. -/
theorem error_wrapper_unknown_code (code : String)
    (meta : List (String × JSVal)) (cause : Option JsError)
    (hsp : SurepassErrorCodes.lookup code = none)
    (hox : OpenExchangeErrorCodes.lookup code = none) :
    (objectPrototypeMembers.contains code = false →
      ((SurepassError.make code meta cause).code = "UNKNOWN_ERROR"
        ∧ (SurepassError.make code meta cause).context.lookup "originalCode"
            = some (JSVal.str code))
      ∧ ((OpenExchangeError.make code meta cause).code = "UNKNOWN_ERROR"
        ∧ (OpenExchangeError.make code meta
            cause).context.lookup "originalCode" = some (JSVal.str code)))
    ∧ (objectPrototypeMembers.contains code = true →
      ((SurepassError.make code meta cause).code = code
        ∧ (SurepassError.make code meta cause).context = meta)
      ∧ ((OpenExchangeError.make code meta cause).code = code
        ∧ (OpenExchangeError.make code meta cause).context = meta)) := by
  unfold SurepassError.make OpenExchangeError.make
  rw [hsp, hox]
  constructor
  · intro hproto
    rw [if_neg (fun hcc => by rw [hproto] at hcc; exact Bool.false_ne_true hcc),
      if_neg (fun hcc => by rw [hproto] at hcc; exact Bool.false_ne_true hcc)]
    exact ⟨⟨rfl, lookup_setKey meta _ _⟩, ⟨rfl, lookup_setKey meta _ _⟩⟩
  · intro hproto
    rw [if_pos hproto, if_pos hproto]
    exact ⟨⟨rfl, rfl⟩, ⟨rfl, rfl⟩⟩

/-- C6 witness: the unrecognized code used by the repository's own tests,
which is neither a table key nor an Object.prototype member. -/
theorem error_wrapper_unknown_code_witness :
    ((SurepassError.make "INVALID_CODE" [] none).code = "UNKNOWN_ERROR"
      ∧ (SurepassError.make "INVALID_CODE" []
          none).context.lookup "originalCode"
        = some (JSVal.str "INVALID_CODE"))
    ∧ ((OpenExchangeError.make "INVALID_CODE" [] none).code = "UNKNOWN_ERROR"
      ∧ (OpenExchangeError.make "INVALID_CODE" []
          none).context.lookup "originalCode"
        = some (JSVal.str "INVALID_CODE")) :=
  (error_wrapper_unknown_code "INVALID_CODE" [] none (by decide)
    (by decide)).1 (by decide)

/-- C7 is refuted as stated for both vendors: the message templates
interpolate the construction-time timestamp (the error documentation states
the timestamp is the moment the error occurred), so two constructions from
the same code and metadata at different clock readings render different
message text, for SurepassError and for OpenExchangeError alike. -/
theorem error_construction_counterexample :
    (SurepassError.make "INVALID_TOKEN" [] none).renderedMessage
        "2023-01-01T00:00:00.000Z"
      ≠ (SurepassError.make "INVALID_TOKEN" [] none).renderedMessage
        "2024-06-30T12:34:56.000Z"
    ∧ (OpenExchangeError.make "INVALID_APP_ID" [] none).renderedMessage
        "2023-01-01T00:00:00.000Z"
      ≠ (OpenExchangeError.make "INVALID_APP_ID" [] none).renderedMessage
        "2024-06-30T12:34:56.000Z" := by
  exact ⟨by decide, by decide⟩

/-- C7 amended: for either vendor, two constructions from the same code,
metadata and cause always agree on code, message template text, context and
cause, and render equal message text whenever the two construction
timestamps coincide; the interpolated timestamp is the only source of
variation. -/
theorem error_construction_deterministic (code : String)
    (meta : List (String × JSVal)) (cause : Option JsError)
    (e1 e2 : SurepassError) (f1 f2 : OpenExchangeError) (t1 t2 : String)
    (h1 : e1 = SurepassError.make code meta cause)
    (h2 : e2 = SurepassError.make code meta cause)
    (h3 : f1 = OpenExchangeError.make code meta cause)
    (h4 : f2 = OpenExchangeError.make code meta cause) :
    (e1.code = e2.code ∧ e1.message = e2.message ∧ e1.context = e2.context
      ∧ e1.cause = e2.cause
      ∧ (t1 = t2 → e1.renderedMessage t1 = e2.renderedMessage t2))
    ∧ (f1.code = f2.code ∧ f1.message = f2.message ∧ f1.context = f2.context
      ∧ f1.cause = f2.cause
      ∧ (t1 = t2 → f1.renderedMessage t1 = f2.renderedMessage t2)) := by
  subst h1 h2 h3 h4
  exact ⟨⟨rfl, rfl, rfl, rfl, fun h => by rw [h]⟩,
    ⟨rfl, rfl, rfl, rfl, fun h => by rw [h]⟩⟩

/-- C7 witness: determinism instantiated at a concrete code and timestamp
for both vendors. -/
theorem error_construction_deterministic_witness :
    (SurepassError.make "INVALID_TOKEN" [] none).renderedMessage
        "2023-01-01T00:00:00.000Z"
      = (SurepassError.make "INVALID_TOKEN" [] none).renderedMessage
        "2023-01-01T00:00:00.000Z"
    ∧ (OpenExchangeError.make "INVALID_APP_ID" [] none).renderedMessage
        "2023-01-01T00:00:00.000Z"
      = (OpenExchangeError.make "INVALID_APP_ID" [] none).renderedMessage
        "2023-01-01T00:00:00.000Z" :=
  ⟨((error_construction_deterministic "INVALID_TOKEN" [] none _ _
      (OpenExchangeError.make "INVALID_TOKEN" [] none)
      (OpenExchangeError.make "INVALID_TOKEN" [] none) _ _
      rfl rfl rfl rfl).1).2.2.2.2 rfl,
   ((error_construction_deterministic "INVALID_APP_ID" [] none
      (SurepassError.make "INVALID_APP_ID" [] none)
      (SurepassError.make "INVALID_APP_ID" [] none) _ _ _ _
      rfl rfl rfl rfl).2).2.2.2.2 rfl⟩

/-- The success value of guardValidate is the validated input with the check
passed. -/
lemma guardValidate_eq_some {check : JSVal → Bool} {v w : JSVal}
    (h : guardValidate check v = some w) : check v = true ∧ w = v := by
  unfold guardValidate at h
  split at h
  · next hc => exact ⟨hc, (Option.some_inj.mp h).symm⟩
  · next => simp at h

/-- C4: evaluation of the handler at the failing input — a status-200
envelope whose body is null. The envelope schema rejects the null body and
the RESPONSE_ERROR construction then reads status_code off the null body
through the non-null assertion, so __checkAPIResponse terminates with a raw
TypeError, a third outcome besides one Validated Result and one Domain Error. -/
theorem response_handler_null_body_typeerror :
    Surepass.checkAPIResponse ⟨200, JSVal.null⟩ (some SurepassNameMatchSchema)
      = .error (.js (.typeError "Cannot read properties of null")) := rfl

/-- C3 is refuted as stated: OpenExchange operations have no try/catch
boundary, so a raw failure thrown by the injected transport reaches the
caller unchanged instead of as an OpenExchangeError. -/
theorem error_propagation_counterexample :
    OpenExchange.getRates (.error (.js (.genericError "Network error")))
      = .error (.js (.genericError "Network error")) := rfl

/-- C3 amended: the propagation policy holds for the Surepass client — every
outcome of a public operation is a value or the client's own Domain Error;
an underlying SurepassError is re-thrown with the endpoint written into its
context, keeping its code, message and cause (no double wrapping), and any
other failure is wrapped as UNHANDLED_ERROR with the endpoint and the cause
attached — while the OpenExchange operations propagate whatever the
transport throws unchanged. -/
theorem error_propagation_amended :
    (∀ (endpoint : String) (transport : Except SPThrow RESTlerResponse)
        (validator : Option (JSVal → Bool)),
        (∃ v, Surepass.operation endpoint transport validator = .ok v)
        ∨ (∃ e, Surepass.operation endpoint transport validator
            = .error (.domain e)))
    ∧ (∀ (endpoint : String) (e : SurepassError)
          (validator : Option (JSVal → Bool)),
        ∃ e2, Surepass.operation endpoint (.error (.domain e)) validator
            = .error (.domain e2)
          ∧ e2.code = e.code ∧ e2.message = e.message ∧ e2.cause = e.cause
          ∧ e2.context = setKey e.context "endpoint" (.str endpoint)
          ∧ e2.context.lookup "endpoint" = some (.str endpoint))
    ∧ (∀ (endpoint : String) (je : JsError)
          (validator : Option (JSVal → Bool)),
        Surepass.operation endpoint (.error (.js je)) validator
          = .error (.domain (SurepassError.make "UNHANDLED_ERROR"
              [("endpoint", .str endpoint)] (some je))))
    ∧ (∀ t : OXThrow, OpenExchange.getRates (.error t) = .error t) := by
  refine ⟨?_, ?_, ?_, ?_⟩
  · intro endpoint transport validator
    cases h : Surepass.attemptOperation transport validator with
    | ok v =>
      exact Or.inl ⟨v, by unfold Surepass.operation; rw [h]⟩
    | error e =>
      cases e with
      | domain e =>
        refine Or.inr ⟨{ e with
          context := setKey e.context "endpoint" (.str endpoint) }, ?_⟩
        unfold Surepass.operation
        rw [h]
      | js je =>
        exact Or.inr ⟨_, by unfold Surepass.operation; rw [h]⟩
  · intro endpoint e validator
    exact ⟨{ e with context := setKey e.context "endpoint" (.str endpoint) },
      rfl, rfl, rfl, rfl, rfl, lookup_setKey e.context _ _⟩
  · intro endpoint je validator
    rfl
  · intro t
    rfl

/-- The latest-rates body of the repository's mocked 250-status test,
shortened to one rate. -/
def mockLatestRatesBody : JSVal := .obj [("rates", .obj [("EUR", .num 1)])]

/-- C1 is refuted as stated: for the status code 250 — outside the vendor's
success and known-error sets — OpenExchange getRates resolves with the parsed
rates of a schema-valid body instead of throwing, exactly as the repository's
own test of the unknown-status default case expects. -/
theorem nonsuccess_throws_counterexample :
    OpenExchange.getRates (.ok ⟨250, mockLatestRatesBody⟩)
      = .ok (JSVal.obj [("EUR", JSVal.num 1)]) := rfl

/-- C1 amended: for every response whose status is in the known error set the
OpenExchange handler always throws a Domain Error and never returns; for a
Surepass body that passed the envelope schema with success strictly false the
handler always throws a Domain Error; but for a status outside the success
and known-error sets the OpenExchange handler throws SERVICE_UNAVAILABLE
exactly when the body fails the success schema and otherwise returns the
validated body. -/
theorem nonsuccess_throws_amended :
    (∀ (resp : RESTlerResponse) (guard : JSVal → Bool),
        [401, 400, 403, 404, 429].contains resp.status = true →
        ∃ e, OpenExchange.handle resp guard = .error (.domain e))
    ∧ (∀ (resp : RESTlerResponse) (guard : JSVal → Bool),
        resp.status ≠ 200 →
        [401, 400, 403, 404, 429].contains resp.status = false →
        (guard resp.body = false →
            OpenExchange.handle resp guard
              = .error (.domain (OpenExchangeError.make "SERVICE_UNAVAILABLE"
                  [("status", .num resp.status), ("body", resp.body),
                   ("responseError", .str "guardian error")] none)))
          ∧ (guard resp.body = true →
              OpenExchange.handle resp guard = .ok resp.body))
    ∧ (∀ (resp : RESTlerResponse) (validator : Option (JSVal → Bool)),
        SurepassResponseSchema resp.body = true →
        resp.body.get "success" = JSVal.bool false →
        ∃ e, Surepass.checkAPIResponse resp validator
          = .error (.domain e)) := by
  refine ⟨?_, ?_, ?_⟩
  · intro resp guard h
    have h200 : ¬(resp.status = 200) := by
      intro he
      rw [he] at h
      simp at h
    unfold OpenExchange.handle
    rw [if_neg h200, if_pos h]
    cases hv : guardValidate ErrorSchemaObject resp.body with
    | none => exact ⟨_, rfl⟩
    | some body =>
      dsimp only
      split_ifs <;> exact ⟨_, rfl⟩
  · intro resp guard h200 hc
    unfold OpenExchange.handle
    rw [if_neg h200,
      if_neg (fun hcc => by rw [hc] at hcc; exact Bool.false_ne_true hcc)]
    constructor
    · intro hg
      have hn : guardValidate guard resp.body = none := by
        unfold guardValidate
        rw [hg]
        rfl
      rw [hn]
    · intro hg
      have hs : guardValidate guard resp.body = some resp.body := by
        unfold guardValidate
        rw [hg]
        rfl
      rw [hs]
  · intro resp validator hschema hsucc
    unfold Surepass.checkAPIResponse
    have hv : guardValidate SurepassResponseSchema resp.body
        = some resp.body := by
      unfold guardValidate
      rw [hschema]
      rfl
    rw [hv]
    dsimp only
    rw [hsucc]
    exact ⟨_, rfl⟩

/-- The Surepass invalid-token error body of the repository's tests. -/
def surepassMockErrorBody : JSVal :=
  .obj [("status_code", .num 401), ("success", .bool false),
        ("message", .str "Invalid token"), ("data", .null)]

/-- C1 amended witness: concrete instances — a 404 not-found response, a
250-status response with an invalid body, and a Surepass success-false body. -/
theorem nonsuccess_throws_amended_witness :
    (∃ e, OpenExchange.handle ⟨404,
        JSVal.obj [("error", JSVal.bool true), ("status", JSVal.num 404),
          ("message", JSVal.str "not_found"), ("description", JSVal.str "nf")]⟩
        LatestRatesSchemaObject = .error (.domain e))
    ∧ (OpenExchange.handle ⟨250, JSVal.null⟩ LatestRatesSchemaObject
        = .error (.domain (OpenExchangeError.make "SERVICE_UNAVAILABLE"
            [("status", JSVal.num ((250 : Int) : Rat)), ("body", JSVal.null),
             ("responseError", JSVal.str "guardian error")] none)))
    ∧ (∃ e, Surepass.checkAPIResponse ⟨401, surepassMockErrorBody⟩ none
        = .error (.domain e)) :=
  ⟨nonsuccess_throws_amended.1 ⟨404, _⟩ LatestRatesSchemaObject (by decide),
   (nonsuccess_throws_amended.2.1 ⟨250, JSVal.null⟩ LatestRatesSchemaObject
      (by decide) (by decide)).1 (by decide),
   nonsuccess_throws_amended.2.2 ⟨401, surepassMockErrorBody⟩ none
     (by decide) rfl⟩

/-- A Surepass error body with the given status code: the shape the vendor
returns on failures, as mocked throughout the repository's tests. -/
def surepassErrorBody (sc : Int) (msg : String) : JSVal :=
  .obj [("status_code", .num sc), ("success", .bool false),
        ("message", .str msg), ("data", .null)]

/-- An OpenExchange error body with the given status and vendor message. -/
def openExchangeErrorBody (st : Int) (msg desc : String) : JSVal :=
  .obj [("error", .bool true), ("status", .num st),
        ("message", .str msg), ("description", .str desc)]

/-- C2: the fixed status-to-code mapping tables. For Surepass, a success-false
body maps status_code 500 to SERVICE_UNAVAILABLE, 422 to VERIFICATION_FAILED,
401 to INVALID_TOKEN, 429 to RATE_LIMIT_EXCEEDED and every other status to
UNKNOWN_RESPONSE_ERROR, and the operation rejects with a Domain Error
carrying exactly that code. For OpenExchange, the status/message pairs
401 with invalid_app_id, 400 with missing_app_id, 404 with not_found, and
403 or 429 with not_allowed or access_restricted reject with INVALID_APP_ID,
MISSING_APP_ID, NOT_FOUND and NOT_ALLOWED respectively. -/
theorem error_code_mapping :
    (∀ (endpoint msg : String) (validator : Option (JSVal → Bool)) (sc : Int),
      ∃ e : SurepassError,
        Surepass.operation endpoint
            (.ok ⟨sc, surepassErrorBody sc msg⟩) validator
          = .error (.domain e)
        ∧ e.code =
            (if sc = 500 then "SERVICE_UNAVAILABLE"
             else if sc = 422 then "VERIFICATION_FAILED"
             else if sc = 401 then "INVALID_TOKEN"
             else if sc = 429 then "RATE_LIMIT_EXCEEDED"
             else "UNKNOWN_RESPONSE_ERROR"))
    ∧ (∀ desc : String,
        (∃ e : OpenExchangeError,
          OpenExchange.getRates
              (.ok ⟨401, openExchangeErrorBody 401 "invalid_app_id" desc⟩)
            = .error (.domain e) ∧ e.code = "INVALID_APP_ID")
        ∧ (∃ e : OpenExchangeError,
          OpenExchange.getRates
              (.ok ⟨400, openExchangeErrorBody 400 "missing_app_id" desc⟩)
            = .error (.domain e) ∧ e.code = "MISSING_APP_ID")
        ∧ (∃ e : OpenExchangeError,
          OpenExchange.getRates
              (.ok ⟨404, openExchangeErrorBody 404 "not_found" desc⟩)
            = .error (.domain e) ∧ e.code = "NOT_FOUND")
        ∧ (∃ e : OpenExchangeError,
          OpenExchange.getRates
              (.ok ⟨403, openExchangeErrorBody 403 "not_allowed" desc⟩)
            = .error (.domain e) ∧ e.code = "NOT_ALLOWED")
        ∧ (∃ e : OpenExchangeError,
          OpenExchange.getRates
              (.ok ⟨403, openExchangeErrorBody 403 "access_restricted" desc⟩)
            = .error (.domain e) ∧ e.code = "NOT_ALLOWED")
        ∧ (∃ e : OpenExchangeError,
          OpenExchange.getRates
              (.ok ⟨429, openExchangeErrorBody 429 "not_allowed" desc⟩)
            = .error (.domain e) ∧ e.code = "NOT_ALLOWED")
        ∧ (∃ e : OpenExchangeError,
          OpenExchange.getRates
              (.ok ⟨429, openExchangeErrorBody 429 "access_restricted" desc⟩)
            = .error (.domain e) ∧ e.code = "NOT_ALLOWED")) := by
  constructor
  · intro endpoint msg validator sc
    by_cases h500 : sc = 500
    · subst h500; exact ⟨_, rfl, rfl⟩
    by_cases h422 : sc = 422
    · subst h422; exact ⟨_, rfl, rfl⟩
    by_cases h401 : sc = 401
    · subst h401; exact ⟨_, rfl, rfl⟩
    by_cases h429 : sc = 429
    · subst h429; exact ⟨_, rfl, rfl⟩
    have n500 : ¬((sc : Rat) = 500) := fun hq => h500 (by exact_mod_cast hq)
    have n422 : ¬((sc : Rat) = 422) := fun hq => h422 (by exact_mod_cast hq)
    have n401 : ¬((sc : Rat) = 401) := fun hq => h401 (by exact_mod_cast hq)
    have n429 : ¬((sc : Rat) = 429) := fun hq => h429 (by exact_mod_cast hq)
    have hschema : SurepassResponseSchema (surepassErrorBody sc msg) = true := by
      unfold SurepassResponseSchema
      have h1 : (surepassErrorBody sc msg).get "status_code"
          = .num (sc : Rat) := rfl
      have h2 : (surepassErrorBody sc msg).get "success" = .bool false := rfl
      have h3 : (surepassErrorBody sc msg).get "message" = .str msg := rfl
      have h4 : (surepassErrorBody sc msg).get "message_code" = .undefined := rfl
      have h5 : (surepassErrorBody sc msg).get "data" = .null := rfl
      rw [h1, h2, h3, h4, h5]
      simp [optionalField, isIntNum, isObjVal, isBool, isStr, surepassErrorBody]
    have hv : guardValidate SurepassResponseSchema (surepassErrorBody sc msg)
        = some (surepassErrorBody sc msg) := by
      unfold guardValidate
      rw [hschema]
      rfl
    refine ⟨{ SurepassError.make "UNKNOWN_RESPONSE_ERROR"
        [("statusCode", JSVal.num (sc : Rat)), ("message", JSVal.str msg),
         ("details", JSVal.null)] none with
        context := setKey
          [("statusCode", JSVal.num (sc : Rat)), ("message", JSVal.str msg),
           ("details", JSVal.null)] "endpoint" (.str endpoint) }, ?_, ?_⟩
    · unfold Surepass.operation Surepass.attemptOperation
        Surepass.checkAPIResponse
      dsimp only
      rw [hv]
      dsimp only
      have hsc : (surepassErrorBody sc msg).get "status_code"
          = .num (sc : Rat) := rfl
      rw [hsc]
      dsimp only
      rw [if_neg n500, if_neg n422, if_neg n401, if_neg n429]
      rfl
    · rw [if_neg h500, if_neg h422, if_neg h401, if_neg h429]
      rfl
  · intro desc
    exact ⟨⟨_, rfl, rfl⟩, ⟨_, rfl, rfl⟩, ⟨_, rfl, rfl⟩, ⟨_, rfl, rfl⟩,
      ⟨_, rfl, rfl⟩, ⟨_, rfl, rfl⟩, ⟨_, rfl, rfl⟩⟩

/-- C5: validation of the declared schema is all-or-nothing. A success
envelope whose data fails the declared validator rejects with PARSE_ERROR for
Surepass; a 200-status body failing the schema rejects with RESPONSE_ERROR
for OpenExchange; whenever either handler resolves, the resolved value passed
the full schema check (no partial or garbage result); and on the concrete
name-match schema a missing required field or a type-mismatched field makes
the whole validation fail. -/
theorem schema_validation_atomicity :
    (∀ (resp : RESTlerResponse) (guard : JSVal → Bool),
        SurepassResponseSchema resp.body = true →
        resp.body.get "success" ≠ JSVal.bool false →
        guard (resp.body.get "data") = false →
        ∃ e, Surepass.checkAPIResponse resp (some guard) = .error (.domain e)
          ∧ e.code = "PARSE_ERROR")
    ∧ (∀ (resp : RESTlerResponse) (guard : JSVal → Bool) (v : JSVal),
        Surepass.checkAPIResponse resp (some guard) = .ok v →
        guard v = true ∧ v = resp.body.get "data")
    ∧ (∀ (resp : RESTlerResponse) (guard : JSVal → Bool),
        resp.status = 200 → guard resp.body = false →
        ∃ e, OpenExchange.handle resp guard = .error (.domain e)
          ∧ e.code = "RESPONSE_ERROR")
    ∧ (∀ (resp : RESTlerResponse) (guard : JSVal → Bool) (v : JSVal),
        OpenExchange.handle resp guard = .ok v → guard v = true)
    ∧ (∀ fields : List (String × JSVal), fields.lookup "name_1" = none →
        SurepassNameMatchSchema (JSVal.obj fields) = false)
    ∧ (∀ (fields : List (String × JSVal)) (s : String),
        fields.lookup "match_score" = some (JSVal.str s) →
        SurepassNameMatchSchema (JSVal.obj fields) = false) := by
  refine ⟨?_, ?_, ?_, ?_, ?_, ?_⟩
  · intro resp guard hschema hsucc hguard
    unfold Surepass.checkAPIResponse
    have hv : guardValidate SurepassResponseSchema resp.body
        = some resp.body := by
      unfold guardValidate
      rw [hschema]
      rfl
    rw [hv]
    dsimp only
    have hn : guardValidate guard (resp.body.get "data") = none := by
      unfold guardValidate
      rw [hguard]
      rfl
    cases hsv : resp.body.get "success" with
    | bool b =>
      cases b with
      | false => exact absurd hsv hsucc
      | true => rw [hn]; exact ⟨_, rfl, rfl⟩
    | undefined => rw [hn]; exact ⟨_, rfl, rfl⟩
    | null => rw [hn]; exact ⟨_, rfl, rfl⟩
    | num q => rw [hn]; exact ⟨_, rfl, rfl⟩
    | str s => rw [hn]; exact ⟨_, rfl, rfl⟩
    | arr elems => rw [hn]; exact ⟨_, rfl, rfl⟩
    | obj fields => rw [hn]; exact ⟨_, rfl, rfl⟩
  · intro resp guard v h
    unfold Surepass.checkAPIResponse at h
    cases hv : guardValidate SurepassResponseSchema resp.body with
    | none =>
      rw [hv] at h
      dsimp only at h
      cases hp : resp.body.getProp "status_code" <;> rw [hp] at h <;>
        exact absurd h (by simp)
    | some respObj =>
      obtain ⟨hcheck, hobj⟩ := guardValidate_eq_some hv
      subst hobj
      rw [hv] at h
      dsimp only at h
      cases hsv : resp.body.get "success" with
      | bool b =>
        cases b with
        | false => rw [hsv] at h; exact absurd h (by simp)
        | true =>
          rw [hsv] at h
          dsimp only at h
          cases hg : guardValidate guard (resp.body.get "data") with
          | none => rw [hg] at h; exact absurd h (by simp)
          | some d =>
            rw [hg] at h
            obtain ⟨hch, hd⟩ := guardValidate_eq_some hg
            have hdv : d = v := by simpa using h
            subst hdv
            exact ⟨hd ▸ hch, hd⟩
      | undefined =>
        rw [hsv] at h
        dsimp only at h
        cases hg : guardValidate guard (resp.body.get "data") with
        | none => rw [hg] at h; exact absurd h (by simp)
        | some d =>
          rw [hg] at h
          obtain ⟨hch, hd⟩ := guardValidate_eq_some hg
          have hdv : d = v := by simpa using h
          subst hdv
          exact ⟨hd ▸ hch, hd⟩
      | null =>
        rw [hsv] at h
        dsimp only at h
        cases hg : guardValidate guard (resp.body.get "data") with
        | none => rw [hg] at h; exact absurd h (by simp)
        | some d =>
          rw [hg] at h
          obtain ⟨hch, hd⟩ := guardValidate_eq_some hg
          have hdv : d = v := by simpa using h
          subst hdv
          exact ⟨hd ▸ hch, hd⟩
      | num q =>
        rw [hsv] at h
        dsimp only at h
        cases hg : guardValidate guard (resp.body.get "data") with
        | none => rw [hg] at h; exact absurd h (by simp)
        | some d =>
          rw [hg] at h
          obtain ⟨hch, hd⟩ := guardValidate_eq_some hg
          have hdv : d = v := by simpa using h
          subst hdv
          exact ⟨hd ▸ hch, hd⟩
      | str s =>
        rw [hsv] at h
        dsimp only at h
        cases hg : guardValidate guard (resp.body.get "data") with
        | none => rw [hg] at h; exact absurd h (by simp)
        | some d =>
          rw [hg] at h
          obtain ⟨hch, hd⟩ := guardValidate_eq_some hg
          have hdv : d = v := by simpa using h
          subst hdv
          exact ⟨hd ▸ hch, hd⟩
      | arr elems =>
        rw [hsv] at h
        dsimp only at h
        cases hg : guardValidate guard (resp.body.get "data") with
        | none => rw [hg] at h; exact absurd h (by simp)
        | some d =>
          rw [hg] at h
          obtain ⟨hch, hd⟩ := guardValidate_eq_some hg
          have hdv : d = v := by simpa using h
          subst hdv
          exact ⟨hd ▸ hch, hd⟩
      | obj fields =>
        rw [hsv] at h
        dsimp only at h
        cases hg : guardValidate guard (resp.body.get "data") with
        | none => rw [hg] at h; exact absurd h (by simp)
        | some d =>
          rw [hg] at h
          obtain ⟨hch, hd⟩ := guardValidate_eq_some hg
          have hdv : d = v := by simpa using h
          subst hdv
          exact ⟨hd ▸ hch, hd⟩
  · intro resp guard h200 hguard
    unfold OpenExchange.handle
    rw [if_pos h200]
    have hn : guardValidate guard resp.body = none := by
      unfold guardValidate
      rw [hguard]
      rfl
    rw [hn]
    exact ⟨_, rfl, rfl⟩
  · intro resp guard v h
    unfold OpenExchange.handle at h
    split_ifs at h
    · cases hg : guardValidate guard resp.body with
      | none => rw [hg] at h; exact absurd h (by simp)
      | some body =>
        rw [hg] at h
        obtain ⟨hch, hb⟩ := guardValidate_eq_some hg
        have hbv : body = v := by simpa using h
        subst hbv
        exact hb ▸ hch
    · cases hEv : guardValidate ErrorSchemaObject resp.body with
      | none => rw [hEv] at h; exact absurd h (by simp)
      | some body =>
        rw [hEv] at h
        dsimp only at h
        split_ifs at h
    · cases hg : guardValidate guard resp.body with
      | none => rw [hg] at h; exact absurd h (by simp)
      | some body =>
        rw [hg] at h
        obtain ⟨hch, hb⟩ := guardValidate_eq_some hg
        have hbv : body = v := by simpa using h
        subst hbv
        exact hb ▸ hch
  · intro fields hl
    have hget : (JSVal.obj fields).get "name_1" = .undefined := by
      unfold JSVal.get
      dsimp only
      rw [hl]
    unfold SurepassNameMatchSchema
    rw [hget]
    simp [isStr]
  · intro fields s hl
    have hget : (JSVal.obj fields).get "match_score" = .str s := by
      unfold JSVal.get
      dsimp only
      rw [hl]
    unfold SurepassNameMatchSchema
    rw [hget]
    simp [isNum]

/-- The success envelope with schema-invalid data mocked by the repository's
validation-error test. -/
def invalidDataBody : JSVal :=
  .obj [("status_code", .num 200), ("success", .bool true),
        ("message", .str "Success"),
        ("data", .obj [("invalid_field", .str "invalid_value")])]

/-- C5 witness: concrete instances — a success envelope whose data misses
the name-match fields, a 200-status OpenExchange body that fails the
latest-rates schema, and the name-match schema on a body missing name_1. -/
theorem schema_validation_atomicity_witness :
    (∃ e, Surepass.checkAPIResponse ⟨200, invalidDataBody⟩
        (some SurepassNameMatchSchema) = .error (.domain e)
      ∧ e.code = "PARSE_ERROR")
    ∧ (∃ e, OpenExchange.handle
        ⟨200, JSVal.obj [("invalid", JSVal.str "response")]⟩
        LatestRatesSchemaObject = .error (.domain e)
      ∧ e.code = "RESPONSE_ERROR")
    ∧ SurepassNameMatchSchema
        (JSVal.obj [("invalid_field", JSVal.str "x")]) = false :=
  ⟨schema_validation_atomicity.1 ⟨200, invalidDataBody⟩ SurepassNameMatchSchema
      (by decide)
      (fun hcontra => JSVal.noConfusion hcontra fun hb => Bool.noConfusion hb)
      (by decide),
   schema_validation_atomicity.2.2.1
      ⟨200, JSVal.obj [("invalid", JSVal.str "response")]⟩
      LatestRatesSchemaObject rfl (by decide),
   schema_validation_atomicity.2.2.2.2.1 [("invalid_field", JSVal.str "x")] rfl⟩

end TundraConnect
